import Mathlib

/-!
Verification development for a single-file FastAPI email-agent backend
(`backend/main.py`).  The backend polls a mail provider for unread messages,
generates reply drafts through a completion API, and sends approved replies.
Each definition below shallowly embeds one Python function of the source;
external services (the mail provider, the completion API, the token refresh)
are modelled as explicit inputs, and the provider calls a handler performs are
recorded as an action trace so that ordering can be stated.
-/

namespace EmailAgent

/-- Numeric value of one character of the urlsafe base64 alphabet
(`A`-`Z`, `a`-`z`, `0`-`9`, `-`, `_`); `none` for any other character,
padding included. -/
def b64Index (c : Char) : Option Nat :=
  if 'A' ≤ c ∧ c ≤ 'Z' then some (c.toNat - 65)
  else if 'a' ≤ c ∧ c ≤ 'z' then some (c.toNat - 97 + 26)
  else if '0' ≤ c ∧ c ≤ '9' then some (c.toNat - 48 + 52)
  else if c = '-' then some 62
  else if c = '_' then some 63
  else none

/-- Regroup a list of 6-bit values into 8-bit bytes: four sextets give three
bytes, a trailing pair or triple gives one or two bytes. -/
def sextetsToBytes : List Nat → List Nat
  | a :: b :: c :: d :: rest =>
      (a * 4 + b / 16) :: ((b % 16) * 16 + c / 4) :: ((c % 4) * 64 + d) ::
        sextetsToBytes rest
  | [a, b, c] => [a * 4 + b / 16, (b % 16) * 16 + c / 4]
  | [a, b] => [a * 4 + b / 16]
  | _ => []

/-- Embedding of `base64.urlsafe_b64decode(data)` followed by the utf-8 decode: decode the
urlsafe base64 alphabet to bytes and view the bytes as characters.  (Multi-byte
UTF-8 sequences are modelled byte-per-character; no claim depends on the byte
level codec, only on which part's data gets decoded.) -/
def urlsafe_b64decode (s : String) : String :=
  String.mk ((sextetsToBytes (s.data.filterMap b64Index)).map Char.ofNat)

/-- Python string slicing `s[:n]`, by code points. -/
def takeChars (s : String) (n : Nat) : String :=
  String.mk (s.data.take n)

/-- One MIME part of a Gmail message payload: its `mimeType`, the `data`
field of its body (`none` models an absent `data` key, which the source
defaults to the empty string), and the nested `parts` a `multipart/*` part
carries. -/
inductive MimePart where
  | mk (mimeType : String) (data : Option String) (subparts : List MimePart)

/-- The `mimeType` field of a part. -/
def MimePart.mimeType : MimePart → String
  | .mk m _ _ => m

/-- The `body.data` field of a part (`none` when the key is absent). -/
def MimePart.data : MimePart → Option String
  | .mk _ d _ => d

/-- The nested `parts` of a part. -/
def MimePart.subparts : MimePart → List MimePart
  | .mk _ _ s => s

/-- A message payload: its `headers` (name/value pairs), its optional top-level
`parts` list (`some` exactly when the payload has a `parts` key), and the
`data` field of the payload body for the single-part case. -/
structure Payload where
  headers : List (String × String)
  parts : Option (List MimePart)
  data : Option String

/-- The loop body of `extract_email_body` over the payload parts: return the
decoded data of the first `text/plain` part whose data is non-empty; parts of
other MIME types, and `text/plain` parts with absent or empty data, are passed
over; nested subparts are never inspected. -/
def extractParts : List MimePart → String
  | [] => ""
  | part :: rest =>
      if part.mimeType = "text/plain" then
        let data := part.data.getD ""
        if data ≠ "" then urlsafe_b64decode data else extractParts rest
      else extractParts rest

/-- Embedding of `extract_email_body(payload)`: the multipart branch scans
the payload parts; otherwise the single-part body data is decoded when
non-empty; every fall-through returns the empty string. -/
def extract_email_body (p : Payload) : String :=
  match p.parts with
  | some parts => extractParts parts
  | none =>
      let data := p.data.getD ""
      if data ≠ "" then urlsafe_b64decode data else ""

/-- Modelled from the words of the spec sentence "the extracted body equals the
decoded content of the first plain-text part, or empty string if none exists":
pick the first part whose content type is `text/plain`, with no condition on
its data, and decode that part's data.  Stated only to be compared with
`extract_email_body`, which is translated from the source. -/
def extract_email_body_spec (p : Payload) : String :=
  match p.parts with
  | some parts =>
      match parts.find? (fun part => part.mimeType == "text/plain") with
      | some part => urlsafe_b64decode (part.data.getD "")
      | none => ""
  | none =>
      let data := p.data.getD ""
      if data ≠ "" then urlsafe_b64decode data else ""

/-- Outcome of the completion HTTP call inside `generate_reply`: either a
response carrying a status code together with the extracted
`choices[0].message.content` when the JSON has that shape (`none` when reading
it would raise), or an exception (network failure or the 30-second timeout). -/
inductive GroqResponse where
  | ok (status : Nat) (content : Option String)
  | exn
deriving DecidableEq

/-- The `timeout=30.0` bound configured on the completion HTTP client. -/
def groq_timeout : Nat := 30

/-- Embedding of `generate_reply(sender, subject, body)`.  The environment key
`GROQ_API_KEY` is `none` when unset (and falsy when empty), and the HTTP
outcome is passed in as a `GroqResponse`.  The function is total: every
failure path returns a sentinel string. -/
def generate_reply (apiKey : Option String) (resp : GroqResponse) : String :=
  if apiKey.getD "" = "" then "Error: Groq API key not configured"
  else
    match resp with
    | .ok status content =>
        if status = 200 then
          match content with
          | some c => c
          | none => "Error generating reply"
        else "Error generating reply"
    | .exn => "Error generating reply"

/-- First header of the given name, or the default:
the first header whose name matches, with a default when none does. -/
def getHeader (headers : List (String × String)) (name default : String) :
    String :=
  match headers.find? (fun h => h.1 == name) with
  | some h => h.2
  | none => default

/-- A fetched Gmail message as the handlers use it: its `threadId` and its
`payload`. -/
structure Message where
  threadId : String
  payload : Payload

/-- Environment of the two list endpoints: the provider's unread-message id
list, the full-message fetch, the `GROQ_API_KEY` environment value, and the
completion API's response as a function of the prompt inputs
(sender, subject, truncated body). -/
structure MailEnv where
  unreadIds : List String
  fetch : String → Message
  groqKey : Option String
  groq : String → String → String → GroqResponse

/-- The provider call listing unread inbox messages with
`maxResults=10`: the provider returns at most `maxResults` ids. -/
def listUnread (env : MailEnv) : List String :=
  env.unreadIds.take 10

/-- One element of the `emails` array built by `GET /emails/unread`. -/
structure UnreadEntry where
  id : String
  sender : String
  subject : String
  body : String
  reply : String
  status : String
deriving DecidableEq

/-- One element of the `drafts` array built by `GET /emails/drafts`. -/
structure DraftEntry where
  id : String
  sender : String
  subject : String
  original_email : String
  draft_reply : String
  status : String
deriving DecidableEq

/-- Loop body of `GET /emails/unread` for one message id: fetch the full
message, read the `From` and `Subject` headers with defaults `Unknown` and
`No Subject`, extract and truncate the body to 500 characters, and generate
a draft from the same truncated body. -/
def mkUnreadEntry (env : MailEnv) (mid : String) : UnreadEntry :=
  let m := env.fetch mid
  let sender := getHeader m.payload.headers "From" "Unknown"
  let subject := getHeader m.payload.headers "Subject" "No Subject"
  let body := extract_email_body m.payload
  let reply := generate_reply env.groqKey
    (env.groq sender subject (takeChars body 500))
  ⟨mid, sender, subject, takeChars body 500, reply, "pending_approval"⟩

/-- The `emails` array of `GET /emails/unread` (the surrounding JSON envelope
adds only the constant status message and `total = emails.length`). -/
def get_unread_emails (env : MailEnv) : List UnreadEntry :=
  (listUnread env).map (mkUnreadEntry env)

/-- Loop body of `GET /emails/drafts` for one message id; same computation as
`mkUnreadEntry`, with the body and reply stored under the keys
`original_email` and `draft_reply`. -/
def mkDraftEntry (env : MailEnv) (mid : String) : DraftEntry :=
  let m := env.fetch mid
  let sender := getHeader m.payload.headers "From" "Unknown"
  let subject := getHeader m.payload.headers "Subject" "No Subject"
  let body := extract_email_body m.payload
  let reply := generate_reply env.groqKey
    (env.groq sender subject (takeChars body 500))
  ⟨mid, sender, subject, takeChars body 500, reply, "pending_approval"⟩

/-- The `drafts` array of `GET /emails/drafts`. -/
def get_email_drafts (env : MailEnv) : List DraftEntry :=
  (listUnread env).map (mkDraftEntry env)

/-- The identifying fields of an unread entry, in the order the claim about
endpoint equivalence lists them: id, sender, subject, truncated body,
generated reply. -/
def UnreadEntry.core (e : UnreadEntry) :
    String × String × String × String × String :=
  (e.id, e.sender, e.subject, e.body, e.reply)

/-- The identifying fields of a draft entry. -/
def DraftEntry.core (e : DraftEntry) :
    String × String × String × String × String :=
  (e.id, e.sender, e.subject, e.original_email, e.draft_reply)

/-- Request body of `POST /emails/edit-draft`. -/
structure EditDraftRequest where
  email_id : String
  draft_reply : String

/-- Response body of `POST /emails/edit-draft`. -/
structure EditDraftResponse where
  status : String
  email_id : String
  draft_reply : String
  message : String
deriving DecidableEq

/-- Embedding of the `edit_draft` handler: it builds its response from the
request alone and touches nothing else. -/
def edit_draft (req : EditDraftRequest) : EditDraftResponse :=
  ⟨"draft_updated", req.email_id, req.draft_reply,
    "✏️ Draft updated. Ready to approve and send"⟩

/-- The `edit_draft` handler seen as a state transformer over the server's
observable state: the handler body reads no server state and performs no
write, so the state component passes through unchanged. -/
def edit_draft_state (env : MailEnv) (req : EditDraftRequest) :
    EditDraftResponse × MailEnv :=
  (edit_draft req, env)

/-- Request body of `POST /emails/send`. -/
structure SendEmailRequest where
  email_id : String
  reply_text : String

/-- The reply message assembled by `MIMEText(request.reply_text)` with the
`to` and `subject` headers then set on it.  (Its serialization and the
`base64.urlsafe_b64encode` wrapping around `message.as_bytes()` are performed
by library code and are kept structured here.) -/
structure MimeMessage where
  «to» : String
  subject : String
  body : String
deriving DecidableEq

/-- One provider call made by the `send_email` handler, in the order the
handler performs them. -/
inductive GAction where
  | getMessage (id : String)
  | send (m : MimeMessage) (threadId : String)
  | modifyRemoveUnread (id : String)
deriving DecidableEq

/-- Environment of the `send_email` handler: the outcome of the three provider
calls it can make (each may raise). -/
structure SendEnv where
  fetch : String → Except String Message
  sendRes : Except String Unit
  modifyRes : Except String Unit

/-- Response body of a successful `POST /emails/send`. -/
structure SendResponse where
  status : String
  message : String
  «to» : String
  subject : String
deriving DecidableEq

/-- Embedding of the `send_email` handler.  It returns the handler outcome
(an exception is re-raised as HTTP 500, modelled as `Except.error`) paired
with the trace of provider calls attempted, in order: fetch the original
message, send the reply built from the ORIGINAL message's `From` and
`Subject` headers (defaults empty string) threaded on the original
`threadId`, then remove the `UNREAD` label. -/
def send_email (env : SendEnv) (req : SendEmailRequest) :
    Except String SendResponse × List GAction :=
  match env.fetch req.email_id with
  | .error e => (.error e, [.getMessage req.email_id])
  | .ok original =>
      let sender := getHeader original.payload.headers "From" ""
      let subject := getHeader original.payload.headers "Subject" ""
      let m : MimeMessage := ⟨sender, "Re: " ++ subject, req.reply_text⟩
      match env.sendRes with
      | .error e =>
          (.error e, [.getMessage req.email_id, .send m original.threadId])
      | .ok _ =>
          match env.modifyRes with
          | .error e =>
              (.error e,
                [.getMessage req.email_id, .send m original.threadId,
                  .modifyRemoveUnread req.email_id])
          | .ok _ =>
              (.ok ⟨"sent", "✅ Email sent successfully", sender,
                  "Re: " ++ subject⟩,
                [.getMessage req.email_id, .send m original.threadId,
                  .modifyRemoveUnread req.email_id])

/-- A stored credential as `google.oauth2.credentials.Credentials` exposes it:
whether an access token is present, whether it is expired, and the optional
refresh token.  Following that library, `valid` is derived: a token that is
present and not expired. -/
structure Creds where
  has_token : Bool
  expired : Bool
  refresh_token : Option String
deriving DecidableEq

/-- The library's `creds.valid`: an access token exists and is not expired. -/
def Creds.valid (c : Creds) : Bool :=
  c.has_token && !c.expired

/-- The handle returned by `build(gmail, v1, credentials=creds)`. -/
structure GmailService where
  creds : Creds
deriving DecidableEq

/-- Mutable state read and written by `get_gmail_service`: the process-wide
`gmail_service` cache and the contents of `token.json` (`none` when the file
does not exist). -/
structure AuthState where
  gmail_service : Option GmailService
  token_file : Option Creds
deriving DecidableEq

/-- How `get_gmail_service` can raise: the explicit
"No valid credentials. Call /authenticate to start OAuth flow." exception,
or a failure propagated from `creds.refresh(Request())`. -/
inductive AuthError where
  | authRequired
  | refreshFailed (msg : String)
deriving DecidableEq

/-- Embedding of `get_gmail_service()`.  `refreshRes` is the outcome of
`creds.refresh(Request())` (the refreshed credential on success).  On the
refresh path the refreshed credential is written to `token.json` before the
service is built and cached; the authentication-required paths raise
before any write. -/
def get_gmail_service (st : AuthState) (refreshRes : Except String Creds) :
    Except AuthError (GmailService × AuthState) :=
  match st.gmail_service with
  | some s => .ok (s, st)
  | none =>
      match st.token_file with
      | none => .error .authRequired
      | some creds =>
          if creds.valid then
            .ok (⟨creds⟩, ⟨some ⟨creds⟩, st.token_file⟩)
          else
            if creds.expired && creds.refresh_token.isSome then
              match refreshRes with
              | .error e => .error (.refreshFailed e)
              | .ok creds2 => .ok (⟨creds2⟩, ⟨some ⟨creds2⟩, some creds2⟩)
            else .error .authRequired

/-- A concrete fetched message: thread `t1`, a From and a Subject header, and
a single-part body whose data decodes to `hi`. -/
def wMessage : Message :=
  ⟨"t1", ⟨[("From", "bob@example.com"), ("Subject", "Meeting")], none,
    some "aGk"⟩⟩

/-- A concrete list-endpoint environment holding one unread message. -/
def wMailEnv : MailEnv :=
  ⟨["msg123"], fun _ => wMessage, some "key",
    fun _ _ _ => GroqResponse.ok 200 (some "Hi Bob")⟩

/-- A concrete send environment in which every provider call succeeds. -/
def wSendEnv : SendEnv :=
  ⟨fun _ => .ok wMessage, .ok (), .ok ()⟩

/-- A concrete approve-and-send request. -/
def wSendReq : SendEmailRequest :=
  ⟨"msg123", "Sounds good."⟩

/-- A concrete message carrying neither a From nor a Subject header. -/
def nhMessage : Message :=
  ⟨"t9", ⟨[("X-Mailer", "x")], none, some "aGk"⟩⟩

/-- A list-endpoint environment holding only `nhMessage`. -/
def nhMailEnv : MailEnv :=
  ⟨["m9"], fun _ => nhMessage, none, fun _ _ _ => GroqResponse.exn⟩

/-- A send environment whose fetch returns `nhMessage`. -/
def nhSendEnv : SendEnv :=
  ⟨fun _ => .ok nhMessage, .ok (), .ok ()⟩

/-- A part that is not plain text is passed over. -/
theorem extractParts_cons_not_plain (q : MimePart) (l : List MimePart)
    (h : q.mimeType ≠ "text/plain") :
    extractParts (q :: l) = extractParts l := by
  simp [extractParts, h]

/-- A plain-text part with absent or empty data is passed over. -/
theorem extractParts_cons_empty (q : MimePart) (l : List MimePart)
    (h1 : q.mimeType = "text/plain") (h2 : q.data.getD "" = "") :
    extractParts (q :: l) = extractParts l := by
  simp [extractParts, h1, h2]

/-- A plain-text part with non-empty data is decoded and returned. -/
theorem extractParts_cons_plain (q : MimePart) (l : List MimePart)
    (h1 : q.mimeType = "text/plain") (h2 : q.data.getD "" ≠ "") :
    extractParts (q :: l) = urlsafe_b64decode (q.data.getD "") := by
  simp [extractParts, h1, h2]

/-- A run of parts that are all skippable contributes nothing. -/
theorem extractParts_append_skip (pre l : List MimePart)
    (h : ∀ q ∈ pre, q.mimeType ≠ "text/plain" ∨ q.data.getD "" = "") :
    extractParts (pre ++ l) = extractParts l := by
  induction pre with
  | nil => rfl
  | cons q pre ih =>
      have hq := h q (List.mem_cons_self q pre)
      have hrest : ∀ r ∈ pre, r.mimeType ≠ "text/plain" ∨ r.data.getD "" = "" :=
        fun r hr => h r (List.mem_cons_of_mem q hr)
      rcases hq with hq | hq
      · rw [List.cons_append, extractParts_cons_not_plain q _ hq, ih hrest]
      · by_cases h1 : q.mimeType = "text/plain"
        · rw [List.cons_append, extractParts_cons_empty q _ h1 hq, ih hrest]
        · rw [List.cons_append, extractParts_cons_not_plain q _ h1, ih hrest]

/-- If every part is skippable, the scan returns the empty string. -/
theorem extractParts_all_skip (l : List MimePart)
    (h : ∀ q ∈ l, q.mimeType ≠ "text/plain" ∨ q.data.getD "" = "") :
    extractParts l = "" := by
  have := extractParts_append_skip l [] h
  simpa using this

/-- The scan over the parts computes the decoded data of the first plain-text
part with non-empty data, when one exists. -/
theorem extractParts_eq_find (l : List MimePart) :
    extractParts l =
      ((l.find? (fun pt => pt.mimeType == "text/plain" &&
          !(pt.data.getD "" == ""))).map
        (fun pt => urlsafe_b64decode (pt.data.getD ""))).getD "" := by
  induction l with
  | nil => rfl
  | cons q l ih =>
      by_cases h1 : q.mimeType = "text/plain"
      · by_cases h2 : q.data.getD "" = ""
        · have hb : (q.data.getD "" == "") = true := by simpa using h2
          rw [extractParts_cons_empty q l h1 h2, List.find?_cons]
          simpa [h1, hb] using ih
        · have hb : (q.data.getD "" == "") = false := by simpa using h2
          rw [extractParts_cons_plain q l h1 h2, List.find?_cons]
          simp [h1, hb]
      · have hb : (q.mimeType == "text/plain") = false := by simpa using h1
        rw [extractParts_cons_not_plain q l h1, List.find?_cons]
        simpa [hb] using ih

/-- When no header of the given name is present, the default is returned. -/
theorem getHeader_eq_default (headers : List (String × String))
    (name d : String) (h : ∀ x ∈ headers, x.1 ≠ name) :
    getHeader headers name d = d := by
  have hn : headers.find? (fun x => x.1 == name) = none := by
    rw [List.find?_eq_none]
    intro x hx
    simpa using h x hx
  simp [getHeader, hn]

/-- The first two provider calls of the send handler, once the fetch of the
original message has succeeded. -/
theorem send_email_trace_head (env : SendEnv) (req : SendEmailRequest)
    (original : Message) (h : env.fetch req.email_id = .ok original) :
    ((send_email env req).2).take 2 =
      [.getMessage req.email_id,
        .send ⟨getHeader original.payload.headers "From" "",
          "Re: " ++ getHeader original.payload.headers "Subject" "",
          req.reply_text⟩ original.threadId] := by
  rcases hs : env.sendRes with e | u
  · simp [send_email, h, hs]
  · rcases hm : env.modifyRes with e | u
    · simp [send_email, h, hs, hm]
    · simp [send_email, h, hs, hm]

/-- Claim C1: for every send request whose fetch of the original message
succeeds, the outgoing reply passed to the gateway takes its recipient from
the From header of the ORIGINAL message and its subject from the string
`Re: ` followed by the Subject header of the original message (the
caller-supplied reply text only becomes the body), and the send is threaded
on the thread identifier of the original message. -/
theorem send_email_builds_reply_from_original
    (env : SendEnv) (req : SendEmailRequest) (original : Message)
    (h : env.fetch req.email_id = .ok original) :
    ((send_email env req).2).take 2 =
      [.getMessage req.email_id,
        .send ⟨getHeader original.payload.headers "From" "",
          "Re: " ++ getHeader original.payload.headers "Subject" "",
          req.reply_text⟩ original.threadId] :=
  send_email_trace_head env req original h

/-- Witness for C1 on a concrete message from bob with subject Meeting. -/
theorem send_email_builds_reply_from_original_witness :
    ((send_email wSendEnv wSendReq).2).take 2 =
      [.getMessage "msg123",
        .send ⟨"bob@example.com", "Re: Meeting", "Sounds good."⟩ "t1"] :=
  send_email_builds_reply_from_original wSendEnv wSendReq wMessage rfl

/-- Claim C2 as stated is false at this input: a multipart payload whose
first plain-text part has empty data and whose second plain-text part has
non-empty data.  The code skips the first part and decodes the second, while
the claim (decoded content of the first plain-text part, embedded as
`extract_email_body_spec`) yields the empty string. -/
theorem extract_email_body_first_part_counterexample :
    extract_email_body
        ⟨[], some [MimePart.mk "text/plain" (some "") [],
          MimePart.mk "text/plain" (some "aGk") []], none⟩ = "hi" ∧
    extract_email_body_spec
        ⟨[], some [MimePart.mk "text/plain" (some "") [],
          MimePart.mk "text/plain" (some "aGk") []], none⟩ = "" ∧
    extract_email_body
        ⟨[], some [MimePart.mk "text/plain" (some "") [],
          MimePart.mk "text/plain" (some "aGk") []], none⟩ ≠
      extract_email_body_spec
        ⟨[], some [MimePart.mk "text/plain" (some "") [],
          MimePart.mk "text/plain" (some "aGk") []], none⟩ := by
  refine ⟨by decide, by decide, by decide⟩

/-- Claim C2, amended: for a multipart payload the extracted body is the
decoded data of the first plain-text part whose data is present and
non-empty (empty string when there is no such part); for a single-part
payload it is the decoded body data (which is empty when the data is absent
or empty). -/
theorem extract_email_body_characterization (p : Payload) :
    (∀ parts, p.parts = some parts →
      extract_email_body p =
        ((parts.find? (fun pt => pt.mimeType == "text/plain" &&
            !(pt.data.getD "" == ""))).map
          (fun pt => urlsafe_b64decode (pt.data.getD ""))).getD "") ∧
    (p.parts = none →
      extract_email_body p = urlsafe_b64decode (p.data.getD "")) := by
  constructor
  · intro parts hp
    have he : extract_email_body p = extractParts parts := by
      simp [extract_email_body, hp]
    rw [he, extractParts_eq_find]
  · intro hp
    rcases hd : p.data with _ | d
    · have he : extract_email_body p = "" := by
        simp [extract_email_body, hp, hd]
      rw [he]
      rfl
    · by_cases hne : d = ""
      · subst hne
        have he : extract_email_body p = "" := by
          simp [extract_email_body, hp, hd]
        rw [he]
        rfl
      · have he : extract_email_body p = urlsafe_b64decode d := by
          simp [extract_email_body, hp, hd, hne]
        rw [he]
        rfl

/-- Witness for the amended C2: a single-part payload decodes its data, and a
multipart payload decodes its first plain-text part with data. -/
theorem extract_email_body_characterization_witness :
    extract_email_body ⟨[], none, some "aGk"⟩ = "hi" ∧
    extract_email_body ⟨[], some [MimePart.mk "text/html" (some "eA") [],
        MimePart.mk "text/plain" (some "aGk") []], none⟩ = "hi" :=
  ⟨((extract_email_body_characterization ⟨[], none, some "aGk"⟩).2
      rfl).trans (by decide),
   ((extract_email_body_characterization
      ⟨[], some [MimePart.mk "text/html" (some "eA") [],
        MimePart.mk "text/plain" (some "aGk") []], none⟩).1
      [MimePart.mk "text/html" (some "eA") [],
        MimePart.mk "text/plain" (some "aGk") []] rfl).trans (by decide)⟩

/-- Claim C3: `generate_reply` never raises.  When the API key is unset (or
empty) it returns the fixed sentinel `Error: Groq API key not configured`;
with a key set, an exception (network failure or the timeout, whose
configured bound is 30) or a non-200 status yields the sentinel
`Error generating reply` instead of failing the request. -/
theorem generate_reply_never_raises (key : Option String)
    (resp : GroqResponse) :
    (key.getD "" = "" →
      generate_reply key resp = "Error: Groq API key not configured") ∧
    (key.getD "" ≠ "" → resp = .exn →
      generate_reply key resp = "Error generating reply") ∧
    (∀ s c, key.getD "" ≠ "" → resp = .ok s c → s ≠ 200 →
      generate_reply key resp = "Error generating reply") ∧
    groq_timeout = 30 := by
  refine ⟨?_, ?_, ?_, rfl⟩
  · intro h
    simp [generate_reply, h]
  · intro h hr
    subst hr
    simp [generate_reply, h]
  · intro s c h hr hsc
    subst hr
    simp [generate_reply, h, hsc]

/-- Witness for C3 at an unset key, an exception, and a 500 status. -/
theorem generate_reply_never_raises_witness :
    generate_reply none .exn = "Error: Groq API key not configured" ∧
    generate_reply (some "key") .exn = "Error generating reply" ∧
    generate_reply (some "key") (.ok 500 (some "body")) =
      "Error generating reply" :=
  ⟨(generate_reply_never_raises none .exn).1 rfl,
   (generate_reply_never_raises (some "key") .exn).2.1 (by decide) rfl,
   (generate_reply_never_raises (some "key") (.ok 500 (some "body"))).2.2.1
     500 (some "body") (by decide) rfl (by decide)⟩

/-- Claim C4: on every mailbox state the drafts endpoint is identical in
effect to the unread endpoint: it re-fetches the same up-to-10 unread
messages and re-generates each draft, producing entries with the same id,
sender, subject, truncated body and generated reply; and a prior edit-draft
call changes nothing the drafts endpoint reads. -/
theorem drafts_identical_to_unread (env : MailEnv) :
    (get_email_drafts env).map DraftEntry.core =
      (get_unread_emails env).map UnreadEntry.core ∧
    ∀ req : EditDraftRequest,
      get_email_drafts (edit_draft_state env req).2 = get_email_drafts env := by
  constructor
  · show ((listUnread env).map (mkDraftEntry env)).map DraftEntry.core =
      ((listUnread env).map (mkUnreadEntry env)).map UnreadEntry.core
    rw [List.map_map, List.map_map]
    rfl
  · intro req
    rfl

/-- Claim C5: the edit-draft handler validates nothing, stores nothing, and
its response carries back exactly the submitted text, regardless of any
prior state. -/
theorem edit_draft_pure_echo (env : MailEnv) (req : EditDraftRequest) :
    edit_draft req =
      ⟨"draft_updated", req.email_id, req.draft_reply,
        "✏️ Draft updated. Ready to approve and send"⟩ ∧
    (edit_draft req).draft_reply = req.draft_reply ∧
    edit_draft_state env req = (edit_draft req, env) :=
  ⟨rfl, rfl, rfl⟩

/-- Claim C6: in every successful approve-and-send run the provider calls
happen in the order fetch, send, mark-read, and only then is the
confirmation payload returned; and in any run whatsoever, the unread label
is removed only in the trace whose second element is the send. -/
theorem send_email_marks_read_only_after_send
    (env : SendEnv) (req : SendEmailRequest) (original : Message) :
    (env.fetch req.email_id = .ok original → env.sendRes = .ok () →
      env.modifyRes = .ok () →
      send_email env req =
        (.ok ⟨"sent", "✅ Email sent successfully",
            getHeader original.payload.headers "From" "",
            "Re: " ++ getHeader original.payload.headers "Subject" ""⟩,
          [.getMessage req.email_id,
            .send ⟨getHeader original.payload.headers "From" "",
              "Re: " ++ getHeader original.payload.headers "Subject" "",
              req.reply_text⟩ original.threadId,
            .modifyRemoveUnread req.email_id])) ∧
    (∀ i, GAction.modifyRemoveUnread i ∈ (send_email env req).2 →
      ∃ m tid, (send_email env req).2 =
        [.getMessage req.email_id, .send m tid,
          .modifyRemoveUnread req.email_id]) := by
  constructor
  · intro h1 h2 h3
    simp [send_email, h1, h2, h3]
  · intro i hmem
    rcases hf : env.fetch req.email_id with e | orig
    · simp [send_email, hf] at hmem
    · rcases hsr : env.sendRes with e | u
      · simp [send_email, hf, hsr] at hmem
      · rcases hmr : env.modifyRes with e | u2
        · refine ⟨⟨getHeader orig.payload.headers "From" "",
            "Re: " ++ getHeader orig.payload.headers "Subject" "",
            req.reply_text⟩, orig.threadId, ?_⟩
          simp [send_email, hf, hsr, hmr]
        · refine ⟨⟨getHeader orig.payload.headers "From" "",
            "Re: " ++ getHeader orig.payload.headers "Subject" "",
            req.reply_text⟩, orig.threadId, ?_⟩
          simp [send_email, hf, hsr, hmr]

/-- Witness for C6: the concrete run matching the spec scenario for message
msg123 from bob. -/
theorem send_email_marks_read_only_after_send_witness :
    send_email wSendEnv wSendReq =
      (.ok ⟨"sent", "✅ Email sent successfully", "bob@example.com",
          "Re: Meeting"⟩,
        [.getMessage "msg123",
          .send ⟨"bob@example.com", "Re: Meeting", "Sounds good."⟩ "t1",
          .modifyRemoveUnread "msg123"]) :=
  (send_email_marks_read_only_after_send wSendEnv wSendReq wMessage).1
    rfl rfl rfl

/-- Claim C7 as stated is false at this input: with a service handle already
cached in the process-wide global, the handler returns the cached handle at
once, even though the token file is absent, instead of signalling that
authentication is required. -/
theorem get_gmail_service_cached_bypass_counterexample :
    (AuthState.mk (some ⟨⟨true, false, none⟩⟩) none).token_file = none ∧
    get_gmail_service ⟨some ⟨⟨true, false, none⟩⟩, none⟩
        (.error "refresh unavailable") =
      .ok (⟨⟨true, false, none⟩⟩, ⟨some ⟨⟨true, false, none⟩⟩, none⟩) :=
  ⟨rfl, rfl⟩

/-- Claim C7, amended with the guard the cache forces: when no service
handle is cached, an absent token, or an invalid token without a refresh
token, raises the authentication-required error; an expired token holding a
refresh token is refreshed, the refreshed token is persisted to the
credential file, and a service handle built from the (valid) refreshed
credential is returned. -/
theorem get_gmail_service_cold_contract
    (st : AuthState) (refreshRes : Except String Creds)
    (hcold : st.gmail_service = none) :
    (st.token_file = none →
      get_gmail_service st refreshRes = .error .authRequired) ∧
    (∀ c, st.token_file = some c → c.valid = false → c.refresh_token = none →
      get_gmail_service st refreshRes = .error .authRequired) ∧
    (∀ c c2, st.token_file = some c → c.expired = true →
      c.refresh_token.isSome = true → refreshRes = .ok c2 →
      c2.valid = true →
      get_gmail_service st refreshRes = .ok (⟨c2⟩, ⟨some ⟨c2⟩, some c2⟩) ∧
        (GmailService.mk c2).creds.valid = true) := by
  obtain ⟨gs, tf⟩ := st
  cases hcold
  refine ⟨?_, ?_, ?_⟩
  · intro h
    subst h
    rfl
  · intro c hc hval hrt
    subst hc
    simp [get_gmail_service, hval, hrt]
  · intro c c2 hc hexp hrt hres hval2
    subst hc
    subst hres
    have hv : c.valid = false := by
      simp [Creds.valid, hexp]
    refine ⟨?_, hval2⟩
    simp [get_gmail_service, hv, hexp, hrt]

/-- Witness for the amended C7 on the three concrete cold-start states. -/
theorem get_gmail_service_cold_contract_witness :
    get_gmail_service ⟨none, none⟩ (.error "e") = .error .authRequired ∧
    get_gmail_service ⟨none, some ⟨false, false, none⟩⟩ (.error "e") =
      .error .authRequired ∧
    get_gmail_service ⟨none, some ⟨true, true, some "r"⟩⟩
        (.ok ⟨true, false, some "r"⟩) =
      .ok (⟨⟨true, false, some "r"⟩⟩,
        ⟨some ⟨⟨true, false, some "r"⟩⟩, some ⟨true, false, some "r"⟩⟩) :=
  ⟨(get_gmail_service_cold_contract ⟨none, none⟩ (.error "e") rfl).1 rfl,
   (get_gmail_service_cold_contract ⟨none, some ⟨false, false, none⟩⟩
      (.error "e") rfl).2.1 ⟨false, false, none⟩ rfl (by decide) rfl,
   ((get_gmail_service_cold_contract ⟨none, some ⟨true, true, some "r"⟩⟩
      (.ok ⟨true, false, some "r"⟩) rfl).2.2 ⟨true, true, some "r"⟩
      ⟨true, false, some "r"⟩ rfl rfl rfl rfl (by decide)).1⟩

/-- Claim C8: both list endpoints return at most 10 entries (the provider is
queried with a limit of 10); every entry's body is the 500-character
truncation of the extracted body of its message, hence a prefix of it of
length at most 500; and the very same truncated body is what the draft
generator is fed. -/
theorem unread_list_bounds (env : MailEnv) :
    (get_unread_emails env).length ≤ 10 ∧
    (get_email_drafts env).length ≤ 10 ∧
    get_unread_emails env = (listUnread env).map (mkUnreadEntry env) ∧
    ∀ mid,
      (mkUnreadEntry env mid).body =
        takeChars (extract_email_body (env.fetch mid).payload) 500 ∧
      ((mkUnreadEntry env mid).body).length ≤ 500 ∧
      ((mkUnreadEntry env mid).body).data ++
          (extract_email_body (env.fetch mid).payload).data.drop 500 =
        (extract_email_body (env.fetch mid).payload).data ∧
      (mkUnreadEntry env mid).reply =
        generate_reply env.groqKey
          (env.groq (mkUnreadEntry env mid).sender
            (mkUnreadEntry env mid).subject (mkUnreadEntry env mid).body) := by
  refine ⟨?_, ?_, rfl, ?_⟩
  · simp [get_unread_emails, listUnread]
  · simp [get_email_drafts, listUnread]
  · intro mid
    refine ⟨rfl, ?_, ?_, rfl⟩
    · show ((extract_email_body (env.fetch mid).payload).data.take
        500).length ≤ 500
      rw [List.length_take]
      exact Nat.min_le_left _ _
    · exact List.take_append_drop 500 _

/-- Claim C9: the default values for missing headers differ between the
operations: the list endpoints report the sender as Unknown and the subject
as No Subject, while approve-and-send on the same message addresses the
reply to the empty string and subjects it exactly `Re: `. -/
theorem missing_header_defaults
    (env : MailEnv) (senv : SendEnv) (mid : String) (req : SendEmailRequest)
    (m : Message) (hm : env.fetch mid = m)
    (hsf : senv.fetch req.email_id = .ok m)
    (hFrom : ∀ x ∈ m.payload.headers, x.1 ≠ "From")
    (hSubj : ∀ x ∈ m.payload.headers, x.1 ≠ "Subject") :
    (mkUnreadEntry env mid).sender = "Unknown" ∧
    (mkUnreadEntry env mid).subject = "No Subject" ∧
    (mkDraftEntry env mid).sender = "Unknown" ∧
    (mkDraftEntry env mid).subject = "No Subject" ∧
    ((send_email senv req).2).take 2 =
      [.getMessage req.email_id,
        .send ⟨"", "Re: ", req.reply_text⟩ m.threadId] := by
  have h1 : (mkUnreadEntry env mid).sender =
      getHeader (env.fetch mid).payload.headers "From" "Unknown" := rfl
  have h2 : (mkUnreadEntry env mid).subject =
      getHeader (env.fetch mid).payload.headers "Subject" "No Subject" := rfl
  have h3 : (mkDraftEntry env mid).sender =
      getHeader (env.fetch mid).payload.headers "From" "Unknown" := rfl
  have h4 : (mkDraftEntry env mid).subject =
      getHeader (env.fetch mid).payload.headers "Subject" "No Subject" := rfl
  refine ⟨?_, ?_, ?_, ?_, ?_⟩
  · rw [h1, hm]
    exact getHeader_eq_default _ _ _ hFrom
  · rw [h2, hm]
    exact getHeader_eq_default _ _ _ hSubj
  · rw [h3, hm]
    exact getHeader_eq_default _ _ _ hFrom
  · rw [h4, hm]
    exact getHeader_eq_default _ _ _ hSubj
  · rw [send_email_trace_head senv req m hsf,
      getHeader_eq_default _ _ _ hFrom, getHeader_eq_default _ _ _ hSubj]
    rfl

/-- Witness for C9 on a concrete message with neither header. -/
theorem missing_header_defaults_witness :
    (mkUnreadEntry nhMailEnv "m9").sender = "Unknown" ∧
    (mkUnreadEntry nhMailEnv "m9").subject = "No Subject" ∧
    (mkDraftEntry nhMailEnv "m9").sender = "Unknown" ∧
    (mkDraftEntry nhMailEnv "m9").subject = "No Subject" ∧
    ((send_email nhSendEnv ⟨"m9", "ok"⟩).2).take 2 =
      [.getMessage "m9", .send ⟨"", "Re: ", "ok"⟩ "t9"] :=
  missing_header_defaults nhMailEnv nhSendEnv "m9" ⟨"m9", "ok"⟩ nhMessage
    rfl rfl (by decide) (by decide)

/-- Claim C10: over a multipart payload, extraction skips every plain-text
part with absent or empty data and returns the decoded data of the first
plain-text part with non-empty data; and it never recurses into nested
subparts, so a payload whose plain text lives only inside nested parts
extracts to the empty string. -/
theorem extract_email_body_skip_no_recursion
    (p : Payload) (parts pre rest : List MimePart) (pt : MimePart) :
    (p.parts = some (pre ++ pt :: rest) →
      (∀ q ∈ pre, q.mimeType ≠ "text/plain" ∨ q.data.getD "" = "") →
      pt.mimeType = "text/plain" → pt.data.getD "" ≠ "" →
      extract_email_body p = urlsafe_b64decode (pt.data.getD "")) ∧
    (p.parts = some parts →
      (∀ q ∈ parts, q.mimeType ≠ "text/plain") →
      extract_email_body p = "") := by
  constructor
  · intro hp hpre h1 h2
    have he : extract_email_body p = extractParts (pre ++ pt :: rest) := by
      simp [extract_email_body, hp]
    rw [he, extractParts_append_skip pre _ hpre,
      extractParts_cons_plain pt rest h1 h2]
  · intro hp hnone
    have he : extract_email_body p = extractParts parts := by
      simp [extract_email_body, hp]
    rw [he]
    exact extractParts_all_skip parts (fun q hq => Or.inl (hnone q hq))

/-- Witness for C10: the data-less plain-text part is skipped, and plain
text inside a nested multipart part is not found. -/
theorem extract_email_body_skip_no_recursion_witness :
    extract_email_body ⟨[], some [MimePart.mk "text/plain" none [],
        MimePart.mk "text/plain" (some "aGk") []], none⟩ = "hi" ∧
    extract_email_body ⟨[], some [MimePart.mk "multipart/alternative" none
        [MimePart.mk "text/plain" (some "aGk") []]], none⟩ = "" :=
  ⟨((extract_email_body_skip_no_recursion
      ⟨[], some [MimePart.mk "text/plain" none [],
        MimePart.mk "text/plain" (some "aGk") []], none⟩
      [] [MimePart.mk "text/plain" none []] []
      (MimePart.mk "text/plain" (some "aGk") [])).1
      rfl (by decide) rfl (by decide)).trans (by decide),
   (extract_email_body_skip_no_recursion
      ⟨[], some [MimePart.mk "multipart/alternative" none
        [MimePart.mk "text/plain" (some "aGk") []]], none⟩
      [MimePart.mk "multipart/alternative" none
        [MimePart.mk "text/plain" (some "aGk") []]] []
      [] (MimePart.mk "" none [])).2 rfl (by decide)⟩

end EmailAgent
